import Mathlib

/-!
Shallow embedding of the apns2 synchronous APNS client (src/types.rs,
src/error.rs, src/lib.rs): notification data model, builder, header
encoding, error taxonomy and the send orchestration, with theorems
settling the specification claims.
-/

namespace Apns

/-- Model of `uuid::Uuid`: an opaque identifier; only its string rendering
is observed by the client (`id.to_string()` in the `apns-id` header). -/
structure Uuid where
  value : String
deriving DecidableEq, Repr

def Uuid.toString (u : Uuid) : String := u.value

/-! ## Error taxonomy (src/error.rs) -/

/-- `ApiErrorReason` from src/error.rs: 28 named reasons plus the open
`Other(String)` fallback. -/
inductive ApiErrorReason where
  | BadCollapseId
  | BadDeviceToken
  | BadExpirationDate
  | BadMessageId
  | BadPriority
  | BadTopic
  | DeviceTokenNotForTopic
  | DuplicateHeaders
  | IdleTimeout
  | MissingDeviceToken
  | MissingTopic
  | PayloadEmpty
  | TopicDisallowed
  | BadCertificate
  | BadCertificateEnvironment
  | ExpiredProviderToken
  | Forbidden
  | InvalidProviderToken
  | MissingProviderToken
  | BadPath
  | MethodNotAllowed
  | Unregistered
  | PayloadTooLarge
  | TooManyProviderTokenUpdates
  | TooManyRequests
  | InternalServerError
  | ServiceUnavailable
  | Shutdown
  | Other (val : String)
deriving DecidableEq, Repr

/-- `ApiErrorReason::from_str` (src/error.rs lines 38-71): a match on the
reason string, falling through to `Other(x.to_string())`. -/
def ApiErrorReason.from_str (value : String) : ApiErrorReason :=
  if value = "BadCollapseId" then .BadCollapseId
  else if value = "BadDeviceToken" then .BadDeviceToken
  else if value = "BadExpirationDate" then .BadExpirationDate
  else if value = "BadMessageId" then .BadMessageId
  else if value = "BadPriority" then .BadPriority
  else if value = "BadTopic" then .BadTopic
  else if value = "DeviceTokenNotForTopic" then .DeviceTokenNotForTopic
  else if value = "DuplicateHeaders" then .DuplicateHeaders
  else if value = "IdleTimeout" then .IdleTimeout
  else if value = "MissingDeviceToken" then .MissingDeviceToken
  else if value = "MissingTopic" then .MissingTopic
  else if value = "PayloadEmpty" then .PayloadEmpty
  else if value = "TopicDisallowed" then .TopicDisallowed
  else if value = "BadCertificate" then .BadCertificate
  else if value = "BadCertificateEnvironment" then .BadCertificateEnvironment
  else if value = "ExpiredProviderToken" then .ExpiredProviderToken
  else if value = "Forbidden" then .Forbidden
  else if value = "InvalidProviderToken" then .InvalidProviderToken
  else if value = "MissingProviderToken" then .MissingProviderToken
  else if value = "BadPath" then .BadPath
  else if value = "MethodNotAllowed" then .MethodNotAllowed
  else if value = "Unregistered" then .Unregistered
  else if value = "PayloadTooLarge" then .PayloadTooLarge
  else if value = "TooManyProviderTokenUpdates" then .TooManyProviderTokenUpdates
  else if value = "TooManyRequests" then .TooManyRequests
  else if value = "InternalServerError" then .InternalServerError
  else if value = "ServiceUnavailable" then .ServiceUnavailable
  else if value = "Shutdown" then .Shutdown
  else .Other value

/-- `ApiErrorReason::to_str` (src/error.rs lines 73-106). -/
def ApiErrorReason.to_str : ApiErrorReason → String
  | .BadCollapseId => "BadCollapseId"
  | .BadDeviceToken => "BadDeviceToken"
  | .BadExpirationDate => "BadExpirationDate"
  | .BadMessageId => "BadMessageId"
  | .BadPriority => "BadPriority"
  | .BadTopic => "BadTopic"
  | .DeviceTokenNotForTopic => "DeviceTokenNotForTopic"
  | .DuplicateHeaders => "DuplicateHeaders"
  | .IdleTimeout => "IdleTimeout"
  | .MissingDeviceToken => "MissingDeviceToken"
  | .MissingTopic => "MissingTopic"
  | .PayloadEmpty => "PayloadEmpty"
  | .TopicDisallowed => "TopicDisallowed"
  | .BadCertificate => "BadCertificate"
  | .BadCertificateEnvironment => "BadCertificateEnvironment"
  | .ExpiredProviderToken => "ExpiredProviderToken"
  | .Forbidden => "Forbidden"
  | .InvalidProviderToken => "InvalidProviderToken"
  | .MissingProviderToken => "MissingProviderToken"
  | .BadPath => "BadPath"
  | .MethodNotAllowed => "MethodNotAllowed"
  | .Unregistered => "Unregistered"
  | .PayloadTooLarge => "PayloadTooLarge"
  | .TooManyProviderTokenUpdates => "TooManyProviderTokenUpdates"
  | .TooManyRequests => "TooManyRequests"
  | .InternalServerError => "InternalServerError"
  | .ServiceUnavailable => "ServiceUnavailable"
  | .Shutdown => "Shutdown"
  | .Other val => val

/-- `ApiErrorReason::is_bad_device_token` (src/error.rs lines 108-113). -/
def ApiErrorReason.is_bad_device_token : ApiErrorReason → Bool
  | .BadDeviceToken => true
  | _ => false

/-- The 28 known reason name strings, in source order (the non-`Other`
arms of `from_str`/`to_str`). -/
def knownReasons : List String :=
  [ "BadCollapseId", "BadDeviceToken", "BadExpirationDate", "BadMessageId",
    "BadPriority", "BadTopic", "DeviceTokenNotForTopic", "DuplicateHeaders",
    "IdleTimeout", "MissingDeviceToken", "MissingTopic", "PayloadEmpty",
    "TopicDisallowed", "BadCertificate", "BadCertificateEnvironment",
    "ExpiredProviderToken", "Forbidden", "InvalidProviderToken",
    "MissingProviderToken", "BadPath", "MethodNotAllowed", "Unregistered",
    "PayloadTooLarge", "TooManyProviderTokenUpdates", "TooManyRequests",
    "InternalServerError", "ServiceUnavailable", "Shutdown" ]

/-! ## Notification data model (src/types.rs) -/

/-- `APN_URL_PRODUCTION` (src/types.rs). -/
def APN_URL_PRODUCTION : String := "https://api.push.apple.com"

/-- `APN_URL_DEV` (src/types.rs). -/
def APN_URL_DEV : String := "https://api.development.push.apple.com"

/-- `Priority` (src/types.rs lines 11-17): Low and High. -/
inductive Priority where
  | Low
  | High
deriving DecidableEq, Repr

/-- `Priority::to_int` (src/types.rs lines 21-26). -/
def Priority.to_int : Priority → Nat
  | .Low => 5
  | .High => 10

/-- `CollapseIdTooLongError` (src/types.rs lines 29-31). -/
inductive CollapseIdTooLongError where
  | mk
deriving DecidableEq, Repr

/-- `CollapseId` (src/types.rs line 36): a newtype over `String`. -/
structure CollapseId where
  val : String
deriving DecidableEq, Repr

/-- `CollapseId::new` (src/types.rs lines 41-48): fails when the string has
more than 64 UTF-8 bytes (Rust `String::len` counts bytes). -/
def CollapseId.new (value : String) : Except CollapseIdTooLongError CollapseId :=
  if value.utf8ByteSize > 64 then .error .mk
  else .ok ⟨value⟩

/-- `CollapseId::as_str` (src/types.rs lines 51-53). -/
def CollapseId.as_str (c : CollapseId) : String := c.val

/-- Modelled from serde semantics for
`#[derive(Deserialize)] struct CollapseId(String)` (src/types.rs line 35):
the derived impl deserializes the inner string and wraps it, with no
length check. -/
def CollapseId.deserializeString (s : String) : CollapseId := ⟨s⟩

/-- `AlertPayload` (src/types.rs lines 61-78): all fields optional. -/
structure AlertPayload where
  title : Option String
  body : Option String
  title_loc_key : Option String
  title_loc_args : Option (List String)
  action_loc_key : Option String
  loc_key : Option String
  loc_args : Option (List String)
  loc_image : Option String
deriving DecidableEq, Repr

/-- `AlertPayload::new` (src/types.rs lines 81-92). -/
def AlertPayload.new (title : Option String) (body : Option String) : AlertPayload :=
  { title := title
    body := body
    title_loc_key := none
    title_loc_args := none
    action_loc_key := none
    loc_key := none
    loc_args := none
    loc_image := none }

/-- `Alert` (src/types.rs lines 100-103): plain string or structured payload. -/
inductive Alert where
  | Simple (msg : String)
  | Payload (p : AlertPayload)
deriving DecidableEq, Repr

/-- `Payload` (src/types.rs lines 106-122). -/
structure Payload where
  alert : Option Alert
  badge : Option Nat
  sound : Option String
  content_available : Option Bool
  category : Option String
  thread_id : Option String
deriving DecidableEq, Repr

/-- `Payload::default()`: every field `None` (Rust `#[derive(Default)]`). -/
def Payload.default : Payload :=
  { alert := none, badge := none, sound := none,
    content_available := none, category := none, thread_id := none }

/-- `ApnsRequest` (src/types.rs lines 126-128): the request body wrapper
`{ "aps": <Payload> }`. -/
structure ApnsRequest where
  aps : Payload
deriving DecidableEq, Repr

/-- `Notification` (src/types.rs lines 135-148). -/
structure Notification where
  topic : String
  device_token : String
  payload : Payload
  id : Option Uuid
  expiration : Option Nat
  priority : Option Priority
  collapse_id : Option CollapseId
deriving DecidableEq, Repr

/-- `Notification::new` (src/types.rs lines 152-162). -/
def Notification.new (topic : String) (device_token : String) (payload : Payload) :
    Notification :=
  { topic := topic
    device_token := device_token
    payload := payload
    id := none
    expiration := none
    priority := none
    collapse_id := none }

/-! ## Notification builder (src/types.rs lines 166-263) -/

/-- `NotificationBuilder` (src/types.rs lines 166-168). -/
structure NotificationBuilder where
  notification : Notification
deriving DecidableEq, Repr

/-- `NotificationBuilder::new` (src/types.rs lines 171-175). -/
def NotificationBuilder.new (topic : String) (device_id : String) : NotificationBuilder :=
  ⟨Notification.new topic device_id Payload.default⟩

/-- `NotificationBuilder::alert` (src/types.rs lines 182-185): replaces any
existing alert with `Simple`. -/
def NotificationBuilder.alert (self : NotificationBuilder) (alert : String) :
    NotificationBuilder :=
  { self with notification.payload.alert := some (.Simple alert) }

/-- `NotificationBuilder::title` (src/types.rs lines 187-199). -/
def NotificationBuilder.title (self : NotificationBuilder) (title : String) :
    NotificationBuilder :=
  let payload :=
    match self.notification.payload.alert with
    | none => AlertPayload.new (some title) none
    | some (.Simple _) => AlertPayload.new (some title) none
    | some (.Payload p) => { p with title := some title }
  { self with notification.payload.alert := some (.Payload payload) }

/-- `NotificationBuilder::body` (src/types.rs lines 201-213). -/
def NotificationBuilder.body (self : NotificationBuilder) (body : String) :
    NotificationBuilder :=
  let payload :=
    match self.notification.payload.alert with
    | none => AlertPayload.new none (some body)
    | some (.Simple title) => AlertPayload.new (some title) (some body)
    | some (.Payload p) => { p with body := some body }
  { self with notification.payload.alert := some (.Payload payload) }

/-- `NotificationBuilder::build` (src/types.rs lines 260-262). -/
def NotificationBuilder.build (self : NotificationBuilder) : Notification :=
  self.notification

/-! ## Error response parsing and send errors (src/error.rs) -/

/-- `ApiError` (src/error.rs lines 125-128). -/
structure ApiError where
  status : Nat
  reason : ApiErrorReason
deriving DecidableEq, Repr

/-- `ApiError::is_bad_device_token` (src/error.rs lines 131-133). -/
def ApiError.is_bad_device_token (e : ApiError) : Bool :=
  e.reason.is_bad_device_token

/-- An opaque transport/serialization failure (`failure::Error` wrapping a
curl or serde_json error); only its presence matters to the client. -/
structure OtherError where
  message : String
deriving DecidableEq, Repr

/-- Rust `{:?}` rendering of a `&[u8]` slice, e.g. `[1, 2, 3]`, as used in
the diagnostic of `ErrorResponse::parse_payload`. -/
def byteListRepr (data : List Nat) : String :=
  "[" ++ String.intercalate ", " (data.map (fun b => toString b)) ++ "]"

/-- `ErrorResponse::parse_payload` (src/error.rs lines 142-150), with the
external `serde_json::from_slice::<ErrorResponse>` decoder abstracted as a
parameter `decodeJson` that either extracts the `reason` string field of a
JSON object or fails. The function itself is total: every byte sequence
yields an `ApiErrorReason`. -/
def ErrorResponse.parse_payload (decodeJson : List Nat → Option String)
    (data : List Nat) : ApiErrorReason :=
  match decodeJson data with
  | some reason => ApiErrorReason.from_str reason
  | none => ApiErrorReason.Other ("Unknown API response: " ++ byteListRepr data)

/-- `SendError` (src/error.rs lines 154-159). -/
inductive SendError where
  | Api (e : ApiError)
  | Other (e : OtherError)
deriving DecidableEq, Repr

/-- `SendError::is_bad_device_token` (src/error.rs lines 169-174). -/
def SendError.is_bad_device_token : SendError → Bool
  | .Api e => e.is_bad_device_token
  | .Other _ => false

/-! ## Delivery client (src/lib.rs) -/

/-- The configuration state of `ApnsSync` (src/lib.rs lines 54-60); the
curl handle and credential are external collaborators and do not affect
the send logic modelled here. -/
structure ApnsSync where
  production : Bool
  verbose : Bool
  delivery_disabled : Bool
deriving DecidableEq, Repr

/-- `ApnsSync::build_url` (src/lib.rs lines 122-129). -/
def ApnsSync.build_url (self : ApnsSync) (device_token : String) : String :=
  let root := if self.production then APN_URL_PRODUCTION else APN_URL_DEV
  root ++ "/3/device/" ++ device_token

/-- The header set assembled by `ApnsSync::send` (src/lib.rs lines 148-174),
as (name, value) pairs in append order. A field that is `None` contributes
an empty value (curl then drops the header), never an absent entry. -/
def requestHeaders (n : Notification) (id : Uuid) : List (String × String) :=
  [ ("apns-id", id.toString),
    ("apns-expiration", (n.expiration.map (fun x => toString x)).getD ""),
    ("apns-priority", (n.priority.map (fun x => toString x.to_int)).getD ""),
    ("apns-topic", n.topic),
    ("apns-collapse-id", (n.collapse_id.map (fun x => x.as_str)).getD "") ]

/-- `ApnsSync::send` (src/lib.rs lines 134-202). External effects are
parameters: `freshId` is the UUID `Uuid::new_v4()` would generate,
`serialize` is `serde_json::to_vec` on the request body, `decodeJson` is
the error-body decoder of `ErrorResponse::parse_payload`, and `transport`
is the curl POST taking the URL, headers and body and yielding the
response status with the collected response body (or a transport error).
Returns `ok id` on status 200, `SendError.Api` otherwise, and
`SendError.Other` on serialization/transport failure. -/
def ApnsSync.send (self : ApnsSync) (freshId : Uuid)
    (serialize : ApnsRequest → Except OtherError (List Nat))
    (decodeJson : List Nat → Option String)
    (transport : String → List (String × String) → List Nat →
      Except OtherError (Nat × List Nat))
    (n : Notification) : Except SendError Uuid :=
  let id := n.id.getD freshId
  if self.delivery_disabled then .ok id
  else
    let url := self.build_url n.device_token
    let headers := requestHeaders n id
    match serialize { aps := n.payload } with
    | .error e => .error (.Other e)
    | .ok raw_request =>
      match transport url headers raw_request with
      | .error e => .error (.Other e)
      | .ok (status, body) =>
        if status ≠ 200 then
          .error (.Api { status := status,
                         reason := ErrorResponse.parse_payload decodeJson body })
        else .ok id

end Apns

namespace Apns

/-- C1: for each of the 28 known reason names the decode/encode pair is the
identity in both directions (a named variant encodes to its name and that
name decodes back to it), and every string outside the known set decodes
to `Other` of that string, which encodes back to the same string
(lossless). -/
theorem apiErrorReason_roundtrip :
    knownReasons.length = 28 ∧
    (∀ r : ApiErrorReason, (∀ t, r ≠ .Other t) →
      r.to_str ∈ knownReasons ∧ ApiErrorReason.from_str r.to_str = r) ∧
    (∀ s, s ∈ knownReasons →
      (ApiErrorReason.from_str s).to_str = s ∧
      ∀ t, ApiErrorReason.from_str s ≠ .Other t) ∧
    (∀ s, s ∉ knownReasons →
      ApiErrorReason.from_str s = .Other s ∧
      (ApiErrorReason.Other s).to_str = s) := by
  refine ⟨by decide, ?_, ?_, ?_⟩
  · intro r h
    cases r
    case Other t => exact absurd rfl (h t)
    all_goals exact ⟨by decide, by decide⟩
  · intro s hs
    fin_cases hs <;> refine ⟨by decide, fun t h => ?_⟩ <;>
      simp [ApiErrorReason.from_str] at h
  · intro s hs
    simp only [knownReasons, List.mem_cons, List.not_mem_nil, or_false, not_or] at hs
    obtain ⟨h1, h2, h3, h4, h5, h6, h7, h8, h9, h10, h11, h12, h13, h14, h15,
      h16, h17, h18, h19, h20, h21, h22, h23, h24, h25, h26, h27, h28⟩ := hs
    refine ⟨?_, rfl⟩
    simp [ApiErrorReason.from_str, h1, h2, h3, h4, h5, h6, h7, h8, h9, h10,
      h11, h12, h13, h14, h15, h16, h17, h18, h19, h20, h21, h22, h23, h24,
      h25, h26, h27, h28]

/-- C1 witness: the round-trip theorem applied to the known name
`Unregistered` and to the unknown string `SomeNewReason`. -/
theorem apiErrorReason_roundtrip_witness :
    (ApiErrorReason.from_str "Unregistered").to_str = "Unregistered" ∧
    ApiErrorReason.from_str "SomeNewReason" = .Other "SomeNewReason" ∧
    (ApiErrorReason.Other "SomeNewReason").to_str = "SomeNewReason" :=
  ⟨(apiErrorReason_roundtrip.2.2.1 "Unregistered" (by decide)).1,
   (apiErrorReason_roundtrip.2.2.2 "SomeNewReason" (by decide)).1,
   (apiErrorReason_roundtrip.2.2.2 "SomeNewReason" (by decide)).2⟩

/-- C2: on a completed exchange (delivery not disabled, serialization and
transport both succeed), status exactly 200 yields `ok` with the delivery
id, and any other status yields `SendError.Api` with that status and the
reason parsed from the response body. -/
theorem send_status_dispatch (self : ApnsSync) (freshId : Uuid)
    (serialize : ApnsRequest → Except OtherError (List Nat))
    (decodeJson : List Nat → Option String)
    (transport : String → List (String × String) → List Nat →
      Except OtherError (Nat × List Nat))
    (n : Notification) (raw body : List Nat) (status : Nat)
    (hd : self.delivery_disabled = false)
    (hser : serialize { aps := n.payload } = .ok raw)
    (htr : transport (self.build_url n.device_token)
      (requestHeaders n (n.id.getD freshId)) raw = .ok (status, body)) :
    (status = 200 →
      self.send freshId serialize decodeJson transport n = .ok (n.id.getD freshId)) ∧
    (status ≠ 200 →
      self.send freshId serialize decodeJson transport n =
        .error (.Api { status := status,
                       reason := ErrorResponse.parse_payload decodeJson body })) := by
  unfold ApnsSync.send
  rw [hd]
  simp only [Bool.false_eq_true, if_false, hser, htr]
  constructor <;> intro h <;> simp [h]

/-- C2 witness: a client with delivery enabled whose transport answers 410
with body decoding to reason `Unregistered` produces the corresponding
`SendError.Api`; the same client with a 200 answer produces `ok`. -/
theorem send_status_dispatch_witness :
    ApnsSync.send ⟨true, false, false⟩ ⟨"fresh"⟩ (fun _ => .ok [])
        (fun _ => some "Unregistered") (fun _ _ _ => .ok (410, [1]))
        (Notification.new "com.example.app" "abcd1234" Payload.default) =
      .error (.Api { status := 410, reason := .Unregistered }) ∧
    ApnsSync.send ⟨true, false, false⟩ ⟨"fresh"⟩ (fun _ => .ok [])
        (fun _ => some "Unregistered") (fun _ _ _ => .ok (200, []))
        (Notification.new "com.example.app" "abcd1234" Payload.default) =
      .ok ⟨"fresh"⟩ :=
  ⟨(send_status_dispatch ⟨true, false, false⟩ ⟨"fresh"⟩ (fun _ => .ok [])
      (fun _ => some "Unregistered") (fun _ _ _ => .ok (410, [1]))
      (Notification.new "com.example.app" "abcd1234" Payload.default)
      [] [1] 410 rfl rfl rfl).2 (by decide),
   (send_status_dispatch ⟨true, false, false⟩ ⟨"fresh"⟩ (fun _ => .ok [])
      (fun _ => some "Unregistered") (fun _ _ _ => .ok (200, []))
      (Notification.new "com.example.app" "abcd1234" Payload.default)
      [] [] 200 rfl rfl rfl).1 rfl⟩

/-- C3: `parse_payload` is total by construction — it returns an
`ApiErrorReason` for every byte sequence; when the bytes decode to a JSON
object with a string `reason` field, that string is mapped through the
taxonomy (`from_str`); when decoding fails, the result is `Other` carrying
the diagnostic built from the raw bytes. -/
theorem parse_payload_total (decodeJson : List Nat → Option String)
    (data : List Nat) :
    (∀ r, decodeJson data = some r →
      ErrorResponse.parse_payload decodeJson data = ApiErrorReason.from_str r) ∧
    (decodeJson data = none →
      ErrorResponse.parse_payload decodeJson data =
        .Other ("Unknown API response: " ++ byteListRepr data)) := by
  unfold ErrorResponse.parse_payload
  constructor
  · intro r h
    rw [h]
  · intro h
    rw [h]

/-- C3 witness: a body of bytes `[0, 159]` that fails JSON decoding yields
`Other` with the diagnostic derived from the raw bytes. -/
theorem parse_payload_total_witness :
    ErrorResponse.parse_payload (fun _ => none) [0, 159] =
      .Other "Unknown API response: [0, 159]" ∧
    ErrorResponse.parse_payload (fun _ => some "BadDeviceToken") [123] =
      .BadDeviceToken :=
  ⟨(parse_payload_total (fun _ => none) [0, 159]).2 rfl,
   (parse_payload_total (fun _ => some "BadDeviceToken") [123]).1
     "BadDeviceToken" rfl⟩

/-- C4: in the emitted header set, an unset expiration/priority/collapse-id
field still contributes its header with the empty string as value (present,
and the value is neither `"None"` nor `"null"`); a set priority is encoded
as the decimal rendering of its numeric value (5 or 10) and a set
collapse-id as its raw string content. -/
theorem requestHeaders_empty_value_policy (n : Notification) (id : Uuid) :
    (n.expiration = none →
      ∃ v, (requestHeaders n id).lookup "apns-expiration" = some v ∧
        v = "" ∧ v ≠ "None" ∧ v ≠ "null") ∧
    (n.priority = none →
      ∃ v, (requestHeaders n id).lookup "apns-priority" = some v ∧
        v = "" ∧ v ≠ "None" ∧ v ≠ "null") ∧
    (n.collapse_id = none →
      ∃ v, (requestHeaders n id).lookup "apns-collapse-id" = some v ∧
        v = "" ∧ v ≠ "None" ∧ v ≠ "null") ∧
    (∀ p, n.priority = some p →
      (requestHeaders n id).lookup "apns-priority" = some (toString p.to_int) ∧
      (p.to_int = 5 ∨ p.to_int = 10)) ∧
    (∀ c, n.collapse_id = some c →
      (requestHeaders n id).lookup "apns-collapse-id" = some c.as_str) := by
  refine ⟨fun h => ⟨"", ?_, rfl, by decide, by decide⟩,
          fun h => ⟨"", ?_, rfl, by decide, by decide⟩,
          fun h => ⟨"", ?_, rfl, by decide, by decide⟩,
          fun p h => ⟨?_, by cases p <;> simp [Priority.to_int]⟩,
          fun c h => ?_⟩ <;>
    simp [requestHeaders, h, List.lookup]

/-- C4 witness: the header theorem applied to a notification with all
optional fields unset, and to one with priority `High` and a collapse id
set. -/
theorem requestHeaders_empty_value_policy_witness :
    (requestHeaders (Notification.new "t" "d" Payload.default) ⟨"u"⟩).lookup
      "apns-expiration" = some "" ∧
    (requestHeaders (Notification.new "t" "d" Payload.default) ⟨"u"⟩).lookup
      "apns-priority" = some "" ∧
    (requestHeaders (Notification.new "t" "d" Payload.default) ⟨"u"⟩).lookup
      "apns-collapse-id" = some "" ∧
    (requestHeaders
      { Notification.new "t" "d" Payload.default with
          priority := some .High, collapse_id := some ⟨"grp"⟩ } ⟨"u"⟩).lookup
      "apns-priority" = some "10" ∧
    (requestHeaders
      { Notification.new "t" "d" Payload.default with
          priority := some .High, collapse_id := some ⟨"grp"⟩ } ⟨"u"⟩).lookup
      "apns-collapse-id" = some "grp" := by
  have h1 := requestHeaders_empty_value_policy
    (Notification.new "t" "d" Payload.default) ⟨"u"⟩
  have h2 := requestHeaders_empty_value_policy
    { Notification.new "t" "d" Payload.default with
        priority := some .High, collapse_id := some ⟨"grp"⟩ } ⟨"u"⟩
  obtain ⟨v1, e1, rfl, -, -⟩ := h1.1 rfl
  obtain ⟨v2, e2, rfl, -, -⟩ := h1.2.1 rfl
  obtain ⟨v3, e3, rfl, -, -⟩ := h1.2.2.1 rfl
  exact ⟨e1, e2, e3, (h2.2.2.2.1 .High rfl).1, h2.2.2.2.2 ⟨"grp"⟩ rfl⟩

/-- C5: `Priority` has exactly the two values `Low` and `High`, and its
numeric encoding is exactly 5 for `Low` and exactly 10 for `High`. -/
theorem priority_two_values_to_int :
    (∀ p : Priority, p = .Low ∨ p = .High) ∧
    Priority.to_int .Low = 5 ∧ Priority.to_int .High = 10 :=
  ⟨fun p => by cases p <;> simp, rfl, rfl⟩

/-- C6: starting from an empty builder, `title T` then `body B` and
`body B` then `title T` build the same notification, whose alert is the
Payload form with title `T` and body `B`. -/
theorem builder_title_body_commute (topic device_id T B : String) :
    (((NotificationBuilder.new topic device_id).title T).body B).build =
      (((NotificationBuilder.new topic device_id).body B).title T).build ∧
    (((NotificationBuilder.new topic device_id).title T).body B).build.payload.alert =
      some (.Payload (AlertPayload.new (some T) (some B))) :=
  ⟨rfl, rfl⟩

/-- C7: `alert X` followed by `title T` discards the Simple text `X`,
leaving a Payload-form alert with title `T` and no body; `alert X`
followed by `body B` instead preserves `X` as the title alongside
body `B`. -/
theorem builder_alert_then_title_discards (topic device_id X T B : String) :
    (((NotificationBuilder.new topic device_id).alert X).title T).build.payload.alert =
      some (.Payload (AlertPayload.new (some T) none)) ∧
    (((NotificationBuilder.new topic device_id).alert X).body B).build.payload.alert =
      some (.Payload (AlertPayload.new (some X) (some B))) :=
  ⟨rfl, rfl⟩

/-- C8: `CollapseId.new` accepts every string of at most 64 bytes and
rejects every longer string with the length-violation error. -/
theorem collapseId_new_boundary (s : String) :
    (s.utf8ByteSize ≤ 64 → CollapseId.new s = .ok ⟨s⟩) ∧
    (s.utf8ByteSize > 64 → CollapseId.new s = .error .mk) := by
  unfold CollapseId.new
  constructor <;> intro h
  · rw [if_neg (by omega)]
  · rw [if_pos h]

/-- C8 witness: the empty string and a 64-byte string are accepted; a
65-byte string is rejected. -/
theorem collapseId_new_boundary_witness :
    CollapseId.new "" = .ok ⟨""⟩ ∧
    CollapseId.new
      "aaaaaaaaaaaaaaaaaaaaaaaaaaaaaaaaaaaaaaaaaaaaaaaaaaaaaaaaaaaaaaaa" =
      .ok ⟨"aaaaaaaaaaaaaaaaaaaaaaaaaaaaaaaaaaaaaaaaaaaaaaaaaaaaaaaaaaaaaaaa"⟩ ∧
    CollapseId.new
      "aaaaaaaaaaaaaaaaaaaaaaaaaaaaaaaaaaaaaaaaaaaaaaaaaaaaaaaaaaaaaaaaa" =
      .error .mk :=
  ⟨(collapseId_new_boundary "").1 (by decide),
   (collapseId_new_boundary
      "aaaaaaaaaaaaaaaaaaaaaaaaaaaaaaaaaaaaaaaaaaaaaaaaaaaaaaaaaaaaaaaa").1
     (by decide),
   (collapseId_new_boundary
      "aaaaaaaaaaaaaaaaaaaaaaaaaaaaaaaaaaaaaaaaaaaaaaaaaaaaaaaaaaaaaaaaa").2
     (by decide)⟩

/-- C9: with delivery disabled, `send` returns `ok` with the
notification's id when set, else the freshly generated UUID, for every
serializer, decoder and transport — in particular the result does not
depend on (and never invokes) the transport. -/
theorem send_delivery_disabled (self : ApnsSync) (freshId : Uuid)
    (serialize : ApnsRequest → Except OtherError (List Nat))
    (decodeJson : List Nat → Option String)
    (transport : String → List (String × String) → List Nat →
      Except OtherError (Nat × List Nat))
    (n : Notification)
    (h : self.delivery_disabled = true) :
    self.send freshId serialize decodeJson transport n = .ok (n.id.getD freshId) := by
  unfold ApnsSync.send
  rw [h]
  simp

/-- C9 witness: a delivery-disabled client returns the configured id when
one is set, and the fresh UUID otherwise, even with a transport that would
always fail. -/
theorem send_delivery_disabled_witness :
    ApnsSync.send ⟨true, false, true⟩ ⟨"fresh"⟩ (fun _ => .error ⟨"boom"⟩)
        (fun _ => none) (fun _ _ _ => .error ⟨"no network"⟩)
        { Notification.new "com.example.app" "abcd1234" Payload.default with
            id := some ⟨"configured"⟩ } = .ok ⟨"configured"⟩ ∧
    ApnsSync.send ⟨true, false, true⟩ ⟨"fresh"⟩ (fun _ => .error ⟨"boom"⟩)
        (fun _ => none) (fun _ _ _ => .error ⟨"no network"⟩)
        (Notification.new "com.example.app" "abcd1234" Payload.default) =
      .ok ⟨"fresh"⟩ :=
  ⟨send_delivery_disabled ⟨true, false, true⟩ ⟨"fresh"⟩ (fun _ => .error ⟨"boom"⟩)
     (fun _ => none) (fun _ _ _ => .error ⟨"no network"⟩)
     { Notification.new "com.example.app" "abcd1234" Payload.default with
         id := some ⟨"configured"⟩ } rfl,
   send_delivery_disabled ⟨true, false, true⟩ ⟨"fresh"⟩ (fun _ => .error ⟨"boom"⟩)
     (fun _ => none) (fun _ _ _ => .error ⟨"no network"⟩)
     (Notification.new "com.example.app" "abcd1234" Payload.default) rfl⟩

/-- C10: the deserialization of the `CollapseId` newtype performs no
length check — it wraps any string unchanged — so a 65-byte deserialized
value violates the at-most-64-bytes bound that `CollapseId.new`
enforces. -/
theorem collapseId_deserialize_unchecked :
    (∀ s, (CollapseId.deserializeString s).val = s) ∧
    (CollapseId.deserializeString
      "aaaaaaaaaaaaaaaaaaaaaaaaaaaaaaaaaaaaaaaaaaaaaaaaaaaaaaaaaaaaaaaaa").val.utf8ByteSize
      > 64 ∧
    CollapseId.new
      (CollapseId.deserializeString
        "aaaaaaaaaaaaaaaaaaaaaaaaaaaaaaaaaaaaaaaaaaaaaaaaaaaaaaaaaaaaaaaaa").val =
      .error .mk :=
  ⟨fun _ => rfl, by decide, rfl⟩

end Apns
